import Mathlib

/-!
Verification of the `langchain-axiora` adapter library.

This file gives a shallow Lean embedding of the library's data model and
operations — the HTTP adapter (`api_wrapper.py`), the error translator and
the tool facades (`tools.py`), the retriever (`retriever.py`) and the
toolkit aggregator (`toolkit.py`) — and proves the specification's claims
about them.

Modelling conventions:
* JSON values are the inductive `Json` below; JSON numbers are modelled as
  integers (no claim depends on non-integral numeric values).
* A Python `dict` of query parameters or of JSON object fields is modelled
  as an association list `List (String × Json)`; a Python `None` value is
  `Json.null`.
* The HTTP transport is abstracted as a function from the request the
  adapter builds (an `HttpCall`) to either a decoded JSON body or an
  `HTTPStatusError`; the adapter code that builds the request and handles
  its outcome is embedded faithfully from the source.
* Fallible construction (pydantic validation errors, missing credentials)
  is modelled with `Except String`.
-/

namespace LangchainAxiora

/-! ## Characters and strings -/

/-- Lexicographic code-point order on character lists (Python string `<=`). -/
def charsLe : List Char → List Char → Bool
  | [], _ => true
  | _ :: _, [] => false
  | a :: as, b :: bs =>
    if a.toNat < b.toNat then true
    else if b.toNat < a.toNat then false
    else charsLe as bs

/-- Lexicographic code-point order on strings (Python string `<=`). -/
def strLe (a b : String) : Bool := charsLe a.data b.data

/-- Whether `pre` is a leading segment of `l`. -/
def charsStartWith : List Char → List Char → Bool
  | [], _ => true
  | _ :: _, [] => false
  | a :: as, b :: bs => a == b && charsStartWith as bs

/-- Whether `needle` occurs contiguously inside `hay`. -/
def charsOccur : List Char → List Char → Bool
  | needle, hay =>
    if charsStartWith needle hay then true
    else match hay with
      | [] => false
      | _ :: rest => charsOccur needle rest

/-- Whether `needle` occurs as a contiguous substring of `hay`
(Python `needle in hay`). -/
def strContains (hay needle : String) : Bool := charsOccur needle.data hay.data

/-- Insert a string into a `strLe`-sorted list, keeping it sorted. -/
def insertSorted (s : String) : List String → List String
  | [] => [s]
  | t :: ts => if strLe s t then s :: t :: ts else t :: insertSorted s ts

/-- Sort a list of strings by code points (Python `sorted` on strings). -/
def sortStrings (l : List String) : List String := l.foldr insertSorted []

/-- Join a list of strings with a separator (Python `sep.join(parts)`). -/
def joinSep (sep : String) : List String → String
  | [] => ""
  | [x] => x
  | x :: y :: xs => x ++ sep ++ joinSep sep (y :: xs)

/-- The decimal digits of `n`, most significant first; `fuel` bounds the
recursion and is always called with `fuel > n`. -/
def natDigitsAux : Nat → Nat → List Char
  | 0, _ => []
  | fuel + 1, n =>
    if n < 10 then [Char.ofNat (48 + n)]
    else natDigitsAux fuel (n / 10) ++ [Char.ofNat (48 + n % 10)]

/-- Decimal rendering of a natural number. -/
def natStr (n : Nat) : String := ⟨natDigitsAux (n + 1) n⟩

/-- Decimal rendering of an integer (Python `str` of an `int`). -/
def intStr : Int → String
  | Int.ofNat m => natStr m
  | Int.negSucc m => "-" ++ natStr (m + 1)

/-- The apostrophe character, used by Python `repr` of strings. -/
def squote : String := String.singleton (Char.ofNat 39)

/-! ## JSON values -/

/-- A JSON value, as decoded by Python's `json` module.  Numbers are
modelled as integers. -/
inductive Json where
  | null
  | bool (b : Bool)
  | num (n : Int)
  | str (s : String)
  | arr (xs : List Json)
  | obj (fields : List (String × Json))

/-- Whether a JSON value is `null` (a decoded Python `None`). -/
def Json.isNull : Json → Bool
  | .null => true
  | _ => false

/-- Emptiness of a string, phrased over its character list. -/
def strIsEmpty (s : String) : Bool := s.data.isEmpty

/-- Python truthiness (`if value:`) of a decoded JSON value: `None`,
`False`, `0`, and empty strings/arrays/objects are falsy. -/
def pyTruthy : Json → Bool
  | .null => false
  | .bool b => b
  | .num n => n != 0
  | .str s => !strIsEmpty s
  | .arr xs => !xs.isEmpty
  | .obj fs => !fs.isEmpty

/-- Python truthiness of an optional string (`if self.section:`). -/
def pyTruthyOptStr : Option String → Bool
  | none => false
  | some s => !strIsEmpty s

mutual

/-- Python `repr` of a decoded JSON value.  Strings are rendered between
single quotes; Python's escape/quote-selection rules inside quoted strings
are not modelled (no claim involves strings containing quote characters). -/
def pyRepr : Json → String
  | .null => "None"
  | .bool true => "True"
  | .bool false => "False"
  | .num n => intStr n
  | .str s => squote ++ s ++ squote
  | .arr xs => "[" ++ pyReprArr xs ++ "]"
  | .obj fs => "\x7b" ++ pyReprObj fs ++ "\x7d"

/-- Python `repr` of a list's elements, comma-separated. -/
def pyReprArr : List Json → String
  | [] => ""
  | [x] => pyRepr x
  | x :: y :: xs => pyRepr x ++ ", " ++ pyReprArr (y :: xs)

/-- Python `repr` of a dict's entries, comma-separated. -/
def pyReprObj : List (String × Json) → String
  | [] => ""
  | [(k, v)] => squote ++ k ++ squote ++ ": " ++ pyRepr v
  | (k, v) :: f :: fs =>
    squote ++ k ++ squote ++ ": " ++ pyRepr v ++ ", " ++ pyReprObj (f :: fs)

end

/-- Python `str` of a decoded JSON value: the string itself for strings,
`repr` otherwise. -/
def pyStr (v : Json) : String :=
  match v with
  | .str s => s
  | v => pyRepr v

/-- Python `repr` of a list of strings, e.g. `['a', 'b']` (what an f-string
interpolates for a `list[str]` value). -/
def pyStrListRepr (l : List String) : String :=
  "[" ++ joinSep ", " (l.map (fun s => squote ++ s ++ squote)) ++ "]"

/-- Look up a key in a JSON object's fields (Python `dict` access; keys in
a decoded JSON object are unique). -/
def jsonLookup (fields : List (String × Json)) (key : String) : Option Json :=
  (fields.find? (fun kv => kv.1 == key)).map (fun kv => kv.2)

/-- Python `dict.get(key, default)` on a JSON object's fields. -/
def jsonGetD (fields : List (String × Json)) (key : String) (dflt : Json) : Json :=
  (jsonLookup fields key).getD dflt

/-- A hexadecimal digit character (lowercase), for JSON `\u00XX` escapes. -/
def hexDigit (n : Nat) : Char :=
  if n < 10 then Char.ofNat (48 + n) else Char.ofNat (87 + n)

/-- JSON string escaping of one character, as Python `json.dumps` performs
with `ensure_ascii=False`: quote, backslash and control characters are
escaped, everything else (including non-ASCII) is kept verbatim. -/
def jsonEscapeChar (c : Char) : String :=
  if c == Char.ofNat 34 then "\\\""
  else if c == Char.ofNat 92 then "\\\\"
  else if c == Char.ofNat 10 then "\\n"
  else if c == Char.ofNat 13 then "\\r"
  else if c == Char.ofNat 9 then "\\t"
  else if c == Char.ofNat 8 then "\\b"
  else if c == Char.ofNat 12 then "\\f"
  else if c.toNat < 32 then
    "\\u00" ++ String.singleton (hexDigit (c.toNat / 16))
      ++ String.singleton (hexDigit (c.toNat % 16))
  else String.singleton c

/-- JSON string escaping, as Python `json.dumps` with `ensure_ascii=False`. -/
def jsonEscape (s : String) : String := String.join (s.data.map jsonEscapeChar)

mutual

/-- Python `json.dumps(data, ensure_ascii=False, default=str)` with the
default separators `', '` and `': '`.  The `default=str` hook only affects
values that are not decoded JSON, so it is unreachable here. -/
def jsonDumps : Json → String
  | .null => "null"
  | .bool true => "true"
  | .bool false => "false"
  | .num n => intStr n
  | .str s => "\"" ++ jsonEscape s ++ "\""
  | .arr xs => "[" ++ jsonDumpsArr xs ++ "]"
  | .obj fs => "\x7b" ++ jsonDumpsObj fs ++ "\x7d"

/-- Serialization of a JSON array's elements, comma-separated. -/
def jsonDumpsArr : List Json → String
  | [] => ""
  | [x] => jsonDumps x
  | x :: y :: xs => jsonDumps x ++ ", " ++ jsonDumpsArr (y :: xs)

/-- Serialization of a JSON object's entries, comma-separated. -/
def jsonDumpsObj : List (String × Json) → String
  | [] => ""
  | [(k, v)] => "\"" ++ jsonEscape k ++ "\": " ++ jsonDumps v
  | (k, v) :: f :: fs =>
    "\"" ++ jsonEscape k ++ "\": " ++ jsonDumps v ++ ", " ++ jsonDumpsObj (f :: fs)

end

/-! ## `api_wrapper.py` — the HTTP adapter -/

/-- `DEFAULT_BASE_URL` (api_wrapper.py). -/
def DEFAULT_BASE_URL : String := "https://api.axiora.dev/v1"

/-- The `AxioraAPIWrapper` pydantic model (api_wrapper.py).  The `api_key`
field holds the already-resolved secret value; `timeout` (a Python float,
default `30.0`) is modelled as an integer number of seconds. -/
structure AxioraAPIWrapper where
  api_key : String
  base_url : String
  timeout : Int
deriving DecidableEq

/-- `AxioraAPIWrapper._clean` (api_wrapper.py line 47): drop the
parameters whose value is `None`. -/
def AxioraAPIWrapper.clean (params : List (String × Json)) : List (String × Json) :=
  params.filter (fun kv => !kv.2.isNull)

/-- Python `str.rstrip('/')`: remove every trailing slash. -/
def rstripSlash (s : String) : String :=
  ⟨(s.data.reverse.dropWhile (fun c => c == Char.ofNat 47)).reverse⟩

/-- The HTTP request handed to the `httpx` client: method, absolute URL,
and the query parameters actually transmitted. -/
structure HttpCall where
  method : String
  url : String
  params : List (String × Json)

/-- The wire request built by `AxioraAPIWrapper.request` (api_wrapper.py
lines 66-71): join the slash-stripped base URL with `path` and clean the
parameters. -/
def AxioraAPIWrapper.requestCall (w : AxioraAPIWrapper) (method path : String)
    (params : List (String × Json)) : HttpCall :=
  { method := method
    url := rstripSlash w.base_url ++ path
    params := AxioraAPIWrapper.clean params }

/-- The wire request built by `AxioraAPIWrapper.arequest` (api_wrapper.py
lines 73-80), the non-blocking variant, embedded from its own body. -/
def AxioraAPIWrapper.arequestCall (w : AxioraAPIWrapper) (method path : String)
    (params : List (String × Json)) : HttpCall :=
  { method := method
    url := rstripSlash w.base_url ++ path
    params := AxioraAPIWrapper.clean params }

/-- The non-2xx failure raised by `resp.raise_for_status()`: status code
plus the raw response.  `jsonBody` is the outcome of `resp.json()` —
`none` when the body is not valid JSON — and `text` is the raw body text. -/
structure HTTPStatusError where
  status : Int
  jsonBody : Option Json
  text : String

/-- The error message configured in `secret_from_env` for a missing key
(api_wrapper.py lines 22-28; the same text is configured in toolkit.py and
retriever.py). -/
def API_KEY_ERROR_MESSAGE : String :=
  "Axiora API key not found. Set the AXIORA_API_KEY environment variable or pass api_key= to the constructor."

/-- `secret_from_env("AXIORA_API_KEY", error_message=...)` as a default
factory: read the environment variable, failing with the configured
message when it is unset. -/
def secretFromEnv (env : Option String) : Except String String :=
  match env with
  | some v => Except.ok v
  | none => Except.error API_KEY_ERROR_MESSAGE

/-- Resolution of the `api_key` field: an explicit constructor argument
wins; otherwise the pydantic `default_factory` (`secretFromEnv`) runs. -/
def resolveApiKey (explicit : Option String) (env : Option String) :
    Except String String :=
  match explicit with
  | some k => Except.ok k
  | none => secretFromEnv env

/-- Construction of `AxioraAPIWrapper(api_key=..., base_url=...)`: resolve
the key (explicit argument, else environment), apply field defaults.
Construction is pure — it performs no HTTP call. -/
def mkAxioraAPIWrapper (apiKeyArg : Option String) (baseUrlArg : Option String)
    (env : Option String) : Except String AxioraAPIWrapper :=
  (resolveApiKey apiKeyArg env).map
    (fun k => { api_key := k, base_url := baseUrlArg.getD DEFAULT_BASE_URL, timeout := 30 })

/-! ## `tools.py` — serialization, error translation, facades -/

/-- `_fmt` (tools.py line 143): `json.dumps(data, ensure_ascii=False,
default=str)`. -/
def fmt (data : Json) : String := jsonDumps data

/-- `_HTTP_ERROR_HINTS` (tools.py lines 148-153). -/
def HTTP_ERROR_HINTS : List (Int × String) :=
  [(401, "Invalid or missing API key. Check your AXIORA_API_KEY."),
   (403, "Access denied. Your plan may not include this endpoint."),
   (404, "Not found. Use axiora_search_companies to find the correct code."),
   (429, "Rate limit exceeded. Wait a moment before retrying.")]

/-- `_HTTP_ERROR_HINTS.get(status, "")`. -/
def hintFor (status : Int) : String :=
  ((HTTP_ERROR_HINTS.find? (fun h => h.1 == status)).map (fun h => h.2)).getD ""

/-- The `detail` value computed by `_handle_http_error` (tools.py lines
160-164): `body.get("detail", body.get("error", ""))` when the body parses
as a JSON object; the first 200 characters of the raw text otherwise
(either `resp.json()` raises on invalid JSON, or `.get` raises an
`AttributeError` on a non-object body — both land in the `except` arm). -/
def responseDetail (e : HTTPStatusError) : Json :=
  match e.jsonBody with
  | some (Json.obj fs) => jsonGetD fs "detail" (jsonGetD fs "error" (Json.str ""))
  | _ => Json.str (e.text.take 200)

/-- `_handle_http_error` (tools.py lines 156-170): the message of the
`ToolException` it always raises.  The detail part is appended when the
detail value is Python-truthy (`if detail:`), rendered with `str`; the
hint part is appended when the hint is nonempty; parts are joined with
`". "`. -/
def handleHttpError (e : HTTPStatusError) : String :=
  let hint := hintFor e.status
  let detail := responseDetail e
  let parts := ["Axiora API error " ++ intStr e.status]
    ++ (if pyTruthy detail then [pyStr detail] else [])
    ++ (if !strIsEmpty hint then [hint] else [])
  joinSep ". " parts

/-- The body shared by every facade's `_run` (tools.py, e.g. lines
220-226): issue the request through `AxioraAPIWrapper.request`, serialize
a success with `_fmt`, and translate an `httpx.HTTPStatusError` with
`_handle_http_error` (which raises a `ToolException`, modelled as the
`Except.error` case). -/
def runToolSync (w : AxioraAPIWrapper)
    (transport : HttpCall → Except HTTPStatusError Json)
    (method path : String) (params : List (String × Json)) :
    Except String String :=
  match transport (w.requestCall method path params) with
  | Except.ok v => Except.ok (fmt v)
  | Except.error e => Except.error (handleHttpError e)

/-- The body shared by every facade's `_arun` (tools.py, e.g. lines
228-234): identical to the blocking body except that it awaits
`AxioraAPIWrapper.arequest`. -/
def runToolAsync (w : AxioraAPIWrapper)
    (transport : HttpCall → Except HTTPStatusError Json)
    (method path : String) (params : List (String × Json)) :
    Except String String :=
  match transport (w.arequestCall method path params) with
  | Except.ok v => Except.ok (fmt v)
  | Except.error e => Except.error (handleHttpError e)

/-- A facade's optional-string input rendered as a query-parameter value
(`None` becomes `Json.null`). -/
def optStr : Option String → Json
  | none => Json.null
  | some s => Json.str s

/-- A facade's optional-integer input rendered as a query-parameter value. -/
def optInt : Option Int → Json
  | none => Json.null
  | some n => Json.num n

/-- `_build_api_wrapper` of `_AxioraBaseTool` (tools.py lines 191-203):
reuse a supplied adapter as-is, otherwise construct one from the optional
`api_key`/`base_url` arguments (falling back to the environment). -/
def mkToolApi (api : Option AxioraAPIWrapper) (apiKeyArg baseUrlArg : Option String)
    (env : Option String) : Except String AxioraAPIWrapper :=
  match api with
  | some w => Except.ok w
  | none => mkAxioraAPIWrapper apiKeyArg baseUrlArg env

/-- `SearchCompaniesTool._run` (tools.py lines 220-226). -/
def SearchCompaniesTool.run (w : AxioraAPIWrapper)
    (transport : HttpCall → Except HTTPStatusError Json)
    (query : String) (sector : Option String) (limit : Int) : Except String String :=
  runToolSync w transport "GET" "/companies/search"
    [("query", Json.str query), ("sector", optStr sector), ("limit", Json.num limit)]

/-- `SearchCompaniesTool._arun` (tools.py lines 228-234). -/
def SearchCompaniesTool.arun (w : AxioraAPIWrapper)
    (transport : HttpCall → Except HTTPStatusError Json)
    (query : String) (sector : Option String) (limit : Int) : Except String String :=
  runToolAsync w transport "GET" "/companies/search"
    [("query", Json.str query), ("sector", optStr sector), ("limit", Json.num limit)]

/-- `GetCompanyTool._run` (tools.py lines 246-250); no `params` argument
is passed, so the adapter cleans the empty mapping. -/
def GetCompanyTool.run (w : AxioraAPIWrapper)
    (transport : HttpCall → Except HTTPStatusError Json)
    (code : String) : Except String String :=
  runToolSync w transport "GET" ("/companies/" ++ code) []

/-- `GetCompanyTool._arun` (tools.py lines 252-256). -/
def GetCompanyTool.arun (w : AxioraAPIWrapper)
    (transport : HttpCall → Except HTTPStatusError Json)
    (code : String) : Except String String :=
  runToolAsync w transport "GET" ("/companies/" ++ code) []

/-- `GetFinancialsTool._run` (tools.py lines 268-274). -/
def GetFinancialsTool.run (w : AxioraAPIWrapper)
    (transport : HttpCall → Except HTTPStatusError Json)
    (code : String) (years : Int) : Except String String :=
  runToolSync w transport "GET" ("/companies/" ++ code ++ "/financials")
    [("years", Json.num years)]

/-- `GetFinancialsTool._arun` (tools.py lines 276-284). -/
def GetFinancialsTool.arun (w : AxioraAPIWrapper)
    (transport : HttpCall → Except HTTPStatusError Json)
    (code : String) (years : Int) : Except String String :=
  runToolAsync w transport "GET" ("/companies/" ++ code ++ "/financials")
    [("years", Json.num years)]

/-- `GetGrowthTool._run` (tools.py lines 296-302). -/
def GetGrowthTool.run (w : AxioraAPIWrapper)
    (transport : HttpCall → Except HTTPStatusError Json)
    (code : String) (years : Int) : Except String String :=
  runToolSync w transport "GET" ("/companies/" ++ code ++ "/growth")
    [("years", Json.num years)]

/-- `GetGrowthTool._arun` (tools.py lines 304-310). -/
def GetGrowthTool.arun (w : AxioraAPIWrapper)
    (transport : HttpCall → Except HTTPStatusError Json)
    (code : String) (years : Int) : Except String String :=
  runToolAsync w transport "GET" ("/companies/" ++ code ++ "/growth")
    [("years", Json.num years)]

/-- `GetRankingTool._run` (tools.py lines 322-336). -/
def GetRankingTool.run (w : AxioraAPIWrapper)
    (transport : HttpCall → Except HTTPStatusError Json)
    (metric : String) (sector : Option String) (order : String) (limit : Int) :
    Except String String :=
  runToolSync w transport "GET" ("/rankings/" ++ metric)
    [("sector", optStr sector), ("order", Json.str order), ("limit", Json.num limit)]

/-- `GetRankingTool._arun` (tools.py lines 338-352). -/
def GetRankingTool.arun (w : AxioraAPIWrapper)
    (transport : HttpCall → Except HTTPStatusError Json)
    (metric : String) (sector : Option String) (order : String) (limit : Int) :
    Except String String :=
  runToolAsync w transport "GET" ("/rankings/" ++ metric)
    [("sector", optStr sector), ("order", Json.str order), ("limit", Json.num limit)]

/-- `GetSectorOverviewTool._run` (tools.py lines 363-369): `if sector:`
routes a truthy sector to `/sectors/{sector}`, else to `/sectors`. -/
def GetSectorOverviewTool.run (w : AxioraAPIWrapper)
    (transport : HttpCall → Except HTTPStatusError Json)
    (sector : Option String) : Except String String :=
  if pyTruthyOptStr sector then
    runToolSync w transport "GET" ("/sectors/" ++ sector.getD "") []
  else
    runToolSync w transport "GET" "/sectors" []

/-- `GetSectorOverviewTool._arun` (tools.py lines 371-377). -/
def GetSectorOverviewTool.arun (w : AxioraAPIWrapper)
    (transport : HttpCall → Except HTTPStatusError Json)
    (sector : Option String) : Except String String :=
  if pyTruthyOptStr sector then
    runToolAsync w transport "GET" ("/sectors/" ++ sector.getD "") []
  else
    runToolAsync w transport "GET" "/sectors" []

/-- `CompareCompaniesTool._run` (tools.py lines 389-395); the codes are
comma-joined into one parameter value. -/
def CompareCompaniesTool.run (w : AxioraAPIWrapper)
    (transport : HttpCall → Except HTTPStatusError Json)
    (codes : List String) (years : Int) : Except String String :=
  runToolSync w transport "GET" "/compare"
    [("codes", Json.str (joinSep "," codes)), ("years", Json.num years)]

/-- `CompareCompaniesTool._arun` (tools.py lines 397-403). -/
def CompareCompaniesTool.arun (w : AxioraAPIWrapper)
    (transport : HttpCall → Except HTTPStatusError Json)
    (codes : List String) (years : Int) : Except String String :=
  runToolAsync w transport "GET" "/compare"
    [("codes", Json.str (joinSep "," codes)), ("years", Json.num years)]

/-- `ScreenCompaniesTool._run` (tools.py lines 415-438); the float-typed
thresholds are modelled as integers. -/
def ScreenCompaniesTool.run (w : AxioraAPIWrapper)
    (transport : HttpCall → Except HTTPStatusError Json)
    (sector : Option String) (minRevenue minNetIncome minRoe maxPeRatio : Option Int)
    (limit : Int) : Except String String :=
  runToolSync w transport "GET" "/screen"
    [("sector", optStr sector), ("min_revenue", optInt minRevenue),
     ("min_net_income", optInt minNetIncome), ("min_roe", optInt minRoe),
     ("max_pe_ratio", optInt maxPeRatio), ("limit", Json.num limit)]

/-- `ScreenCompaniesTool._arun` (tools.py lines 440-463). -/
def ScreenCompaniesTool.arun (w : AxioraAPIWrapper)
    (transport : HttpCall → Except HTTPStatusError Json)
    (sector : Option String) (minRevenue minNetIncome minRoe maxPeRatio : Option Int)
    (limit : Int) : Except String String :=
  runToolAsync w transport "GET" "/screen"
    [("sector", optStr sector), ("min_revenue", optInt minRevenue),
     ("min_net_income", optInt minNetIncome), ("min_roe", optInt minRoe),
     ("max_pe_ratio", optInt maxPeRatio), ("limit", Json.num limit)]

/-- `GetHealthScoreTool._run` (tools.py lines 475-479). -/
def GetHealthScoreTool.run (w : AxioraAPIWrapper)
    (transport : HttpCall → Except HTTPStatusError Json)
    (code : String) : Except String String :=
  runToolSync w transport "GET" ("/companies/" ++ code ++ "/health") []

/-- `GetHealthScoreTool._arun` (tools.py lines 481-485). -/
def GetHealthScoreTool.arun (w : AxioraAPIWrapper)
    (transport : HttpCall → Except HTTPStatusError Json)
    (code : String) : Except String String :=
  runToolAsync w transport "GET" ("/companies/" ++ code ++ "/health") []

/-- `GetHealthRankingTool._run` (tools.py lines 496-506). -/
def GetHealthRankingTool.run (w : AxioraAPIWrapper)
    (transport : HttpCall → Except HTTPStatusError Json)
    (sector : Option String) (order : String) (limit : Int) : Except String String :=
  runToolSync w transport "GET" "/rankings/health"
    [("sector", optStr sector), ("order", Json.str order), ("limit", Json.num limit)]

/-- `GetHealthRankingTool._arun` (tools.py lines 508-518). -/
def GetHealthRankingTool.arun (w : AxioraAPIWrapper)
    (transport : HttpCall → Except HTTPStatusError Json)
    (sector : Option String) (order : String) (limit : Int) : Except String String :=
  runToolAsync w transport "GET" "/rankings/health"
    [("sector", optStr sector), ("order", Json.str order), ("limit", Json.num limit)]

/-- `GetPeersTool._run` (tools.py lines 530-536). -/
def GetPeersTool.run (w : AxioraAPIWrapper)
    (transport : HttpCall → Except HTTPStatusError Json)
    (code : String) (limit : Int) : Except String String :=
  runToolSync w transport "GET" ("/companies/" ++ code ++ "/peers")
    [("limit", Json.num limit)]

/-- `GetPeersTool._arun` (tools.py lines 538-544). -/
def GetPeersTool.arun (w : AxioraAPIWrapper)
    (transport : HttpCall → Except HTTPStatusError Json)
    (code : String) (limit : Int) : Except String String :=
  runToolAsync w transport "GET" ("/companies/" ++ code ++ "/peers")
    [("limit", Json.num limit)]

/-- `GetTimeseriesTool._run` (tools.py lines 556-566). -/
def GetTimeseriesTool.run (w : AxioraAPIWrapper)
    (transport : HttpCall → Except HTTPStatusError Json)
    (codes : List String) (metric : String) (years : Int) : Except String String :=
  runToolSync w transport "GET" "/timeseries"
    [("codes", Json.str (joinSep "," codes)), ("metric", Json.str metric),
     ("years", Json.num years)]

/-- `GetTimeseriesTool._arun` (tools.py lines 568-578). -/
def GetTimeseriesTool.arun (w : AxioraAPIWrapper)
    (transport : HttpCall → Except HTTPStatusError Json)
    (codes : List String) (metric : String) (years : Int) : Except String String :=
  runToolAsync w transport "GET" "/timeseries"
    [("codes", Json.str (joinSep "," codes)), ("metric", Json.str metric),
     ("years", Json.num years)]

/-- `ListFilingsTool._run` (tools.py lines 589-602). -/
def ListFilingsTool.run (w : AxioraAPIWrapper)
    (transport : HttpCall → Except HTTPStatusError Json)
    (companyCode docType : Option String) (limit : Int) : Except String String :=
  runToolSync w transport "GET" "/filings"
    [("company_code", optStr companyCode), ("doc_type", optStr docType),
     ("limit", Json.num limit)]

/-- `ListFilingsTool._arun` (tools.py lines 604-617). -/
def ListFilingsTool.arun (w : AxioraAPIWrapper)
    (transport : HttpCall → Except HTTPStatusError Json)
    (companyCode docType : Option String) (limit : Int) : Except String String :=
  runToolAsync w transport "GET" "/filings"
    [("company_code", optStr companyCode), ("doc_type", optStr docType),
     ("limit", Json.num limit)]

/-- `GetTranslationsTool._run` (tools.py lines 629-635). -/
def GetTranslationsTool.run (w : AxioraAPIWrapper)
    (transport : HttpCall → Except HTTPStatusError Json)
    (docId : String) (sectionArg : Option String) : Except String String :=
  runToolSync w transport "GET" ("/translations/" ++ docId)
    [("section", optStr sectionArg)]

/-- `GetTranslationsTool._arun` (tools.py lines 637-643). -/
def GetTranslationsTool.arun (w : AxioraAPIWrapper)
    (transport : HttpCall → Except HTTPStatusError Json)
    (docId : String) (sectionArg : Option String) : Except String String :=
  runToolAsync w transport "GET" ("/translations/" ++ docId)
    [("section", optStr sectionArg)]

/-- `SearchTranslationsTool._run` (tools.py lines 655-663). -/
def SearchTranslationsTool.run (w : AxioraAPIWrapper)
    (transport : HttpCall → Except HTTPStatusError Json)
    (query : String) (sectionArg : Option String) (limit : Int) : Except String String :=
  runToolSync w transport "GET" "/translations/search"
    [("query", Json.str query), ("section", optStr sectionArg), ("limit", Json.num limit)]

/-- `SearchTranslationsTool._arun` (tools.py lines 665-673). -/
def SearchTranslationsTool.arun (w : AxioraAPIWrapper)
    (transport : HttpCall → Except HTTPStatusError Json)
    (query : String) (sectionArg : Option String) (limit : Int) : Except String String :=
  runToolAsync w transport "GET" "/translations/search"
    [("query", Json.str query), ("section", optStr sectionArg), ("limit", Json.num limit)]

/-- `GetFilingCalendarTool._run` (tools.py lines 684-688). -/
def GetFilingCalendarTool.run (w : AxioraAPIWrapper)
    (transport : HttpCall → Except HTTPStatusError Json)
    (month : String) : Except String String :=
  runToolSync w transport "GET" "/filings/calendar" [("month", Json.str month)]

/-- `GetFilingCalendarTool._arun` (tools.py lines 690-696). -/
def GetFilingCalendarTool.arun (w : AxioraAPIWrapper)
    (transport : HttpCall → Except HTTPStatusError Json)
    (month : String) : Except String String :=
  runToolAsync w transport "GET" "/filings/calendar" [("month", Json.str month)]

/-- `SearchCompaniesBatchTool._run` (tools.py lines 708-714). -/
def SearchCompaniesBatchTool.run (w : AxioraAPIWrapper)
    (transport : HttpCall → Except HTTPStatusError Json)
    (queries : List String) : Except String String :=
  runToolSync w transport "GET" "/companies/search"
    [("queries", Json.str (joinSep "," queries))]

/-- `SearchCompaniesBatchTool._arun` (tools.py lines 716-722). -/
def SearchCompaniesBatchTool.arun (w : AxioraAPIWrapper)
    (transport : HttpCall → Except HTTPStatusError Json)
    (queries : List String) : Except String String :=
  runToolAsync w transport "GET" "/companies/search"
    [("queries", Json.str (joinSep "," queries))]

/-- `GetCoverageTool._run` (tools.py lines 732-736). -/
def GetCoverageTool.run (w : AxioraAPIWrapper)
    (transport : HttpCall → Except HTTPStatusError Json) : Except String String :=
  runToolSync w transport "GET" "/coverage" []

/-- `GetCoverageTool._arun` (tools.py lines 738-742). -/
def GetCoverageTool.arun (w : AxioraAPIWrapper)
    (transport : HttpCall → Except HTTPStatusError Json) : Except String String :=
  runToolAsync w transport "GET" "/coverage" []

/-! ## `retriever.py` — the retriever facade -/

/-- The `AxioraRetriever` pydantic model (retriever.py lines 70-89), with
the `api_key` field already resolved. -/
structure AxioraRetriever where
  api_key : String
  base_url : String
  sectionFilter : Option String
  k : Int

/-- The `_wrapper` property (retriever.py lines 91-95): the adapter built
from the retriever's key and base URL (lazily on first use; modelled as
the value it always yields). -/
def AxioraRetriever.wrapper (r : AxioraRetriever) : AxioraAPIWrapper :=
  { api_key := r.api_key, base_url := r.base_url, timeout := 30 }

/-- The per-item transform inside `AxioraRetriever._to_documents`
(retriever.py lines 131-138): text is `item.get("content",
item.get("snippet", ""))`; the metadata keeps every field whose key is
neither `content` nor `snippet` and whose value is not `None`. -/
def docOfItem (item : List (String × Json)) : Json × List (String × Json) :=
  (jsonGetD item "content" (jsonGetD item "snippet" (Json.str "")),
   item.filter (fun kv => !(kv.1 == "content") && !(kv.1 == "snippet") && !kv.2.isNull))

/-- The loop of `_to_documents` over the `data` items: a non-object item
makes Python raise (`item.get` on a non-dict); the loop stops at the first
offending item. -/
def docsOfItems : List Json → Except String (List (Json × List (String × Json)))
  | [] => Except.ok []
  | Json.obj item :: rest =>
    match docsOfItems rest with
    | Except.ok ds => Except.ok (docOfItem item :: ds)
    | Except.error m => Except.error m
  | _ :: _ => Except.error "AttributeError: item has no attribute get"

/-- `AxioraRetriever._to_documents` (retriever.py lines 127-139): a
non-dict result, or a dict without a `data` key, yields no documents.  A
`data` value that is a string or a dict is still iterable in Python — an
empty one yields no documents, a non-empty one raises at the first
element (`.get` on a `str` key or character); a null, boolean or numeric
`data` value is not iterable and raises a `TypeError`. -/
def toDocuments (result : Json) : Except String (List (Json × List (String × Json))) :=
  match result with
  | Json.obj fields =>
    match jsonLookup fields "data" with
    | none => Except.ok []
    | some (Json.arr items) => docsOfItems items
    | some (Json.str s) =>
      if strIsEmpty s then Except.ok []
      else Except.error "AttributeError: str item has no attribute get"
    | some (Json.obj fs) =>
      if fs.isEmpty then Except.ok []
      else Except.error "AttributeError: str key has no attribute get"
    | some _ => Except.error "TypeError: data is not iterable"
  | _ => Except.ok []

/-- The query parameters built by `_get_relevant_documents` (retriever.py
lines 103-105): `q` and `limit` always, `section` only when truthy. -/
def AxioraRetriever.searchParams (r : AxioraRetriever) (query : String) :
    List (String × Json) :=
  [("q", Json.str query), ("limit", Json.num r.k)]
    ++ (if pyTruthyOptStr r.sectionFilter then [("section", Json.str (r.sectionFilter.getD ""))] else [])

/-- `AxioraRetriever._get_relevant_documents` (retriever.py lines 97-110):
issue the blocking adapter call and swallow an `httpx.HTTPStatusError`
into an empty document list. -/
def AxioraRetriever.getRelevantDocuments (r : AxioraRetriever) (query : String)
    (transport : HttpCall → Except HTTPStatusError Json) :
    Except String (List (Json × List (String × Json))) :=
  match transport (r.wrapper.requestCall "GET" "/translations/search"
      (r.searchParams query)) with
  | Except.error _ => Except.ok []
  | Except.ok result => toDocuments result

/-- `AxioraRetriever._aget_relevant_documents` (retriever.py lines
112-125), the non-blocking variant, embedded from its own body. -/
def AxioraRetriever.agetRelevantDocuments (r : AxioraRetriever) (query : String)
    (transport : HttpCall → Except HTTPStatusError Json) :
    Except String (List (Json × List (String × Json))) :=
  match transport (r.wrapper.arequestCall "GET" "/translations/search"
      (r.searchParams query)) with
  | Except.error _ => Except.ok []
  | Except.ok result => toDocuments result

/-- Construction of `AxioraRetriever(...)` with its field defaults
(retriever.py lines 70-89). -/
def mkAxioraRetriever (apiKeyArg baseUrlArg sectionArg : Option String)
    (kArg : Option Int) (env : Option String) : Except String AxioraRetriever :=
  (resolveApiKey apiKeyArg env).map
    (fun key => { api_key := key, base_url := baseUrlArg.getD DEFAULT_BASE_URL,
                  sectionFilter := sectionArg, k := kArg.getD 10 })

/-! ## `toolkit.py` — the toolkit aggregator -/

/-- The `name` defaults of the classes in `ALL_TOOLS` (tools.py lines
745-764), in source order. -/
def ALL_TOOL_NAMES : List String :=
  ["axiora_search_companies",
   "axiora_get_company",
   "axiora_get_financials",
   "axiora_get_growth",
   "axiora_get_ranking",
   "axiora_get_sector_overview",
   "axiora_compare_companies",
   "axiora_screen_companies",
   "axiora_get_health_score",
   "axiora_get_health_ranking",
   "axiora_get_peers",
   "axiora_get_timeseries",
   "axiora_list_filings",
   "axiora_get_translations",
   "axiora_search_translations",
   "axiora_get_filing_calendar",
   "axiora_search_companies_batch",
   "axiora_get_coverage"]

/-- `_VALID_TOOL_NAMES` (toolkit.py lines 13-15): the frozenset of the
`name` defaults of the `ALL_TOOLS` classes, modelled as the name list
(membership is what matters). -/
def VALID_TOOL_NAMES : List String := ALL_TOOL_NAMES

/-- `AxioraToolkit._validate_selected_tools` (toolkit.py lines 84-93):
`set(selected) - valid` nonempty fails with a `ValueError` listing the
sorted invalid names and the sorted valid names. -/
def validateSelectedTools (selected : Option (List String)) :
    Except String (Option (List String)) :=
  match selected with
  | none => Except.ok none
  | some l =>
    let invalid := (l.filter (fun n => !VALID_TOOL_NAMES.contains n)).dedup
    if invalid.isEmpty then Except.ok (some l)
    else Except.error ("Invalid tool names: " ++ pyStrListRepr (sortStrings invalid)
      ++ ". Valid names: " ++ pyStrListRepr (sortStrings VALID_TOOL_NAMES))

/-- The `AxioraToolkit` pydantic model (toolkit.py lines 18-82) after
validation, with the `api_key` field already resolved. -/
structure AxioraToolkit where
  api_key : String
  base_url : String
  selected_tools : Option (List String)

/-- A constructed tool facade as `get_tools` returns it: its fixed name
and the adapter it is bound to. -/
structure ToolInstance where
  name : String
  api : AxioraAPIWrapper
deriving DecidableEq

/-- `AxioraToolkit.get_tools` (toolkit.py lines 95-102): build one shared
adapter, instantiate every class of `ALL_TOOLS` on it, and keep only the
selected names when a subset was requested. -/
def AxioraToolkit.getTools (tk : AxioraToolkit) : List ToolInstance :=
  let api : AxioraAPIWrapper :=
    { api_key := tk.api_key, base_url := tk.base_url, timeout := 30 }
  let allTools := ALL_TOOL_NAMES.map (fun n => ({ name := n, api := api } : ToolInstance))
  match tk.selected_tools with
  | some selected => allTools.filter (fun t => selected.contains t.name)
  | none => allTools

/-- Construction of `AxioraToolkit(...)`: pydantic resolves the `api_key`
field (explicit argument, else environment) before the mode-after
validator checks `selected_tools`. -/
def mkAxioraToolkit (apiKeyArg baseUrlArg : Option String)
    (selected : Option (List String)) (env : Option String) :
    Except String AxioraToolkit :=
  match resolveApiKey apiKeyArg env with
  | Except.error m => Except.error m
  | Except.ok k =>
    match validateSelectedTools selected with
    | Except.error m => Except.error m
    | Except.ok sel =>
      Except.ok { api_key := k, base_url := baseUrlArg.getD DEFAULT_BASE_URL,
                  selected_tools := sel }

/-! ## Textual representations of credential-carrying models

Modelled from the spec: the credential is "an opaque secret string; never
rendered in logs, string conversions, or serialized output".  The masking
itself is performed by the third-party pydantic `SecretStr` type (not part
of this repository): its `str`/`repr` render as a fixed mask and its JSON
serialization is the mask, while every other field is rendered from its
value.  The functions below model the four representations named by the
spec for the adapter, a facade and the toolkit. -/

/-- The fixed mask pydantic renders in place of a secret value. -/
def SECRET_MASK : String := "**********"

/-- Modelled from the spec: `repr(AxioraAPIWrapper(...))` — every field
rendered, the secret replaced by the mask. -/
def AxioraAPIWrapper.reprStr (w : AxioraAPIWrapper) : String :=
  "AxioraAPIWrapper(api_key=SecretStr(" ++ squote ++ SECRET_MASK ++ squote
    ++ "), base_url=" ++ squote ++ w.base_url ++ squote
    ++ ", timeout=" ++ intStr w.timeout ++ ".0)"

/-- Modelled from the spec: `str(AxioraAPIWrapper(...))` — the pydantic
space-separated field rendering, the secret replaced by the mask. -/
def AxioraAPIWrapper.strConv (w : AxioraAPIWrapper) : String :=
  "api_key=SecretStr(" ++ squote ++ SECRET_MASK ++ squote
    ++ ") base_url=" ++ squote ++ w.base_url ++ squote
    ++ " timeout=" ++ intStr w.timeout ++ ".0"

/-- Modelled from the spec: `AxioraAPIWrapper(...).model_dump_json()` —
the JSON serialization, the secret replaced by the mask. -/
def AxioraAPIWrapper.modelDumpJson (w : AxioraAPIWrapper) : String :=
  "\x7b\"api_key\":\"" ++ SECRET_MASK ++ "\",\"base_url\":\""
    ++ jsonEscape w.base_url ++ "\",\"timeout\":" ++ intStr w.timeout ++ ".0\x7d"

/-- Modelled from the spec: `repr` of a constructed tool facade — its name
and its adapter rendering; the secret only ever passes through the adapter
rendering, masked. -/
def ToolInstance.reprStr (t : ToolInstance) : String :=
  "name=" ++ squote ++ t.name ++ squote ++ " api=" ++ t.api.reprStr

/-- Modelled from the spec: JSON dump of a constructed tool facade. -/
def ToolInstance.modelDumpJson (t : ToolInstance) : String :=
  "\x7b\"name\":\"" ++ jsonEscape t.name ++ "\",\"api\":" ++ t.api.modelDumpJson ++ "\x7d"

/-- Modelled from the spec: `repr(AxioraToolkit(...))` — every field
rendered, the secret replaced by the mask. -/
def AxioraToolkit.reprStr (tk : AxioraToolkit) : String :=
  "AxioraToolkit(api_key=SecretStr(" ++ squote ++ SECRET_MASK ++ squote
    ++ "), base_url=" ++ squote ++ tk.base_url ++ squote
    ++ ", selected_tools="
    ++ (match tk.selected_tools with
        | none => "None"
        | some l => pyStrListRepr l)
    ++ ")"

/-! ## The specification claims, rendered as definitions

The definitions in this section transcribe the words of the spec (not the
source); they exist to be compared against the embedded source functions
above. -/

/-- The hint table exactly as the spec states it: a hint is present
exactly for the status codes 401, 403, 404 and 429. -/
def claimedHint (status : Int) : String :=
  if status = 401 then "Invalid or missing API key. Check your AXIORA_API_KEY."
  else if status = 403 then "Access denied. Your plan may not include this endpoint."
  else if status = 404 then "Not found. Use axiora_search_companies to find the correct code."
  else if status = 429 then "Rate limit exceeded. Wait a moment before retrying."
  else ""

/-- The detail value as the spec describes it: the body's `detail` field
(else its `error` field) when the body parses as a JSON object, and the
first 200 characters of the raw text on parse failure. -/
def claimedDetailValue (e : HTTPStatusError) : Json :=
  match e.jsonBody with
  | some (Json.obj fs) => jsonGetD fs "detail" (jsonGetD fs "error" (Json.str ""))
  | _ => Json.str (e.text.take 200)

/-- The error message exactly as the claim states it: the `". "`-joined
concatenation of the header, the detail and the hint, omitting *empty*
segments. -/
def claimedErrorMessage (e : HTTPStatusError) : String :=
  joinSep ". "
    ((["Axiora API error " ++ intStr e.status,
       pyStr (claimedDetailValue e),
       claimedHint e.status]).filter (fun s => !strIsEmpty s))

/-- The error message as the claim must be amended: a detail segment is
omitted when the detail *value* is Python-falsy (null, false, zero, empty
string or empty container), not merely when its string form is empty. -/
def claimedErrorMessageAmended (e : HTTPStatusError) : String :=
  let detail := claimedDetailValue e
  joinSep ". "
    ((["Axiora API error " ++ intStr e.status,
       if pyTruthy detail then pyStr detail else "",
       claimedHint e.status]).filter (fun s => !strIsEmpty s))

/-! ## Helper lemmas -/

theorem strData_append (a b : String) : (a ++ b).data = a.data ++ b.data := by
  cases a
  cases b
  rfl

theorem strIsEmpty_append_left (a b : String) (h : strIsEmpty a = false) :
    strIsEmpty (a ++ b) = false := by
  unfold strIsEmpty at h ⊢
  rw [strData_append]
  cases ha : a.data with
  | nil => rw [ha] at h; simp [List.isEmpty] at h
  | cons c cs => simp [List.isEmpty]

theorem natStr_not_empty (m : Nat) : strIsEmpty (natStr m) = false := by
  unfold natStr strIsEmpty natDigitsAux
  split
  · simp [List.isEmpty]
  · cases natDigitsAux m (m / 10) <;> simp [List.isEmpty]

theorem intStr_not_empty (n : Int) : strIsEmpty (intStr n) = false := by
  cases n with
  | ofNat m => exact natStr_not_empty m
  | negSucc m => exact strIsEmpty_append_left "-" _ (by decide)

theorem header_not_empty (n : Int) :
    strIsEmpty ("Axiora API error " ++ intStr n) = false :=
  strIsEmpty_append_left _ _ (by decide)

theorem pyStr_not_empty_of_truthy (v : Json) (h : pyTruthy v = true) :
    strIsEmpty (pyStr v) = false := by
  cases v with
  | null => simp [pyTruthy] at h
  | bool b =>
    cases b with
    | false => simp [pyTruthy] at h
    | true =>
      have : pyStr (Json.bool true) = "True" := by simp [pyStr, pyRepr]
      rw [this]; decide
  | num n =>
    have : pyStr (Json.num n) = intStr n := by simp [pyStr, pyRepr]
    rw [this]; exact intStr_not_empty n
  | str s => simpa [pyTruthy, pyStr] using h
  | arr xs =>
    have : pyStr (Json.arr xs) = "[" ++ pyReprArr xs ++ "]" := by
      simp [pyStr, pyRepr]
    rw [this]
    exact strIsEmpty_append_left _ _ (strIsEmpty_append_left "[" _ (by decide))
  | obj fs =>
    have : pyStr (Json.obj fs) = "\x7b" ++ pyReprObj fs ++ "\x7d" := by
      simp [pyStr, pyRepr]
    rw [this]
    exact strIsEmpty_append_left _ _ (strIsEmpty_append_left "\x7b" _ (by decide))

theorem hintFor_eq_claimedHint (st : Int) : hintFor st = claimedHint st := by
  by_cases h1 : st = 401
  · subst h1; rfl
  by_cases h2 : st = 403
  · subst h2; rfl
  by_cases h3 : st = 404
  · subst h3; rfl
  by_cases h4 : st = 429
  · subst h4; rfl
  have e1 : ((401 : Int) == st) = false := beq_eq_false_iff_ne.mpr (fun h => h1 h.symm)
  have e2 : ((403 : Int) == st) = false := beq_eq_false_iff_ne.mpr (fun h => h2 h.symm)
  have e3 : ((404 : Int) == st) = false := beq_eq_false_iff_ne.mpr (fun h => h3 h.symm)
  have e4 : ((429 : Int) == st) = false := beq_eq_false_iff_ne.mpr (fun h => h4 h.symm)
  simp [hintFor, HTTP_ERROR_HINTS, List.find?, e1, e2, e3, e4, claimedHint, h1, h2, h3, h4]

theorem isNull_eq_false_iff (v : Json) : v.isNull = false ↔ v ≠ Json.null := by
  cases v <;> simp [Json.isNull]

/-! ## Claim C1 — the error translator -/

/-- C1 counterexample: at status 500 with body `{"detail": 0}`, the code
omits the detail (Python falsiness of `0`), while the claim as stated
keeps the nonempty segment `"0"`; the two messages differ. -/
theorem handleHttpError_zero_detail_cx :
    handleHttpError { status := 500, jsonBody := some (Json.obj [("detail", Json.num 0)]), text := "" }
      = "Axiora API error 500"
    ∧ claimedErrorMessage { status := 500, jsonBody := some (Json.obj [("detail", Json.num 0)]), text := "" }
      = "Axiora API error 500. 0"
    ∧ "Axiora API error 500" ≠ "Axiora API error 500. 0" := by
  refine ⟨by rfl, ?_, by decide⟩
  simp only [claimedErrorMessage, claimedDetailValue, pyStr, pyRepr, claimedHint]
  rfl

/-- C1 (amended): the `ToolException` message of `_handle_http_error` is
the `". "`-joined concatenation of the header `Axiora API error <s>`, the
detail (the body's `detail` field, else its `error` field, when the body
parses as a JSON object; the first 200 characters of the raw text
otherwise) and the static hint (present exactly for 401/403/404/429),
where the hint is omitted when empty and the detail is omitted when its
value is Python-falsy. -/
theorem handleHttpError_spec (e : HTTPStatusError) :
    handleHttpError e = claimedErrorMessageAmended e := by
  unfold handleHttpError claimedErrorMessageAmended
  rw [hintFor_eq_claimedHint]
  have hd : responseDetail e = claimedDetailValue e := rfl
  rw [hd]
  have hhdr := header_not_empty e.status
  have hempty : strIsEmpty "" = true := by decide
  by_cases h1 : pyTruthy (claimedDetailValue e) = true
  · have hp := pyStr_not_empty_of_truthy _ h1
    by_cases h2 : strIsEmpty (claimedHint e.status) = true
    · simp [h1, h2, hhdr, hp, hempty, List.filter]
    · have h2f : strIsEmpty (claimedHint e.status) = false := by
        simpa using h2
      simp [h1, h2f, hhdr, hp, hempty, List.filter]
  · have h1f : pyTruthy (claimedDetailValue e) = false := by simpa using h1
    by_cases h2 : strIsEmpty (claimedHint e.status) = true
    · simp [h1f, h2, hhdr, hempty, List.filter]
    · have h2f : strIsEmpty (claimedHint e.status) = false := by
        simpa using h2
      simp [h1f, h2f, hhdr, hempty, List.filter]

/-! ## Claim C2 — parameter cleaning -/

/-- C2: the query parameters handed to the HTTP client by `request` and
`arequest` are exactly the non-null entries of the given mapping, keys and
values unchanged; null-valued keys are never transmitted; cleaning a
mapping with no null values is a no-op. -/
theorem request_transmits_exactly_nonnull_params (w : AxioraAPIWrapper)
    (method path : String) (p : List (String × Json)) :
    (w.requestCall method path p).params = p.filter (fun kv => !kv.2.isNull)
    ∧ (w.arequestCall method path p).params = p.filter (fun kv => !kv.2.isNull)
    ∧ (∀ kv, kv ∈ (w.requestCall method path p).params ↔ kv ∈ p ∧ kv.2 ≠ Json.null)
    ∧ (∀ kv, kv ∈ (w.arequestCall method path p).params ↔ kv ∈ p ∧ kv.2 ≠ Json.null)
    ∧ AxioraAPIWrapper.clean (AxioraAPIWrapper.clean p) = AxioraAPIWrapper.clean p
    ∧ ((∀ kv ∈ p, kv.2 ≠ Json.null) → AxioraAPIWrapper.clean p = p) := by
  have hmem : ∀ kv : String × Json,
      kv ∈ p.filter (fun kv => !kv.2.isNull) ↔ kv ∈ p ∧ kv.2 ≠ Json.null := by
    intro kv
    rw [List.mem_filter]
    constructor
    · rintro ⟨hm, hn⟩
      exact ⟨hm, (isNull_eq_false_iff kv.2).mp (by simpa using hn)⟩
    · rintro ⟨hm, hn⟩
      exact ⟨hm, by simp [(isNull_eq_false_iff kv.2).mpr hn]⟩
  refine ⟨rfl, rfl, hmem, hmem, ?_, ?_⟩
  · unfold AxioraAPIWrapper.clean
    rw [List.filter_filter]
    simp
  · intro h
    unfold AxioraAPIWrapper.clean
    rw [List.filter_eq_self]
    intro kv hkv
    simp [(isNull_eq_false_iff kv.2).mpr (h kv hkv)]

/-- C2 witness: at a concrete adapter and mapping with one null value. -/
theorem request_transmits_exactly_nonnull_params_witness :
    (∀ kv ∈ [("query", Json.str "toyota"), ("sector", Json.null)].filter
        (fun kv => !kv.2.isNull), kv.2 ≠ Json.null)
    ∧ AxioraAPIWrapper.clean [("query", Json.str "toyota")] = [("query", Json.str "toyota")] := by
  constructor
  · intro kv hkv
    have h := (request_transmits_exactly_nonnull_params
      { api_key := "k", base_url := "https://api.axiora.dev/v1", timeout := 30 }
      "GET" "/companies/search"
      [("query", Json.str "toyota"), ("sector", Json.null)]).2.2.1 kv
    exact (h.mp hkv).2
  · exact (request_transmits_exactly_nonnull_params
      { api_key := "k", base_url := "https://api.axiora.dev/v1", timeout := 30 }
      "GET" "/companies/search" [("query", Json.str "toyota")]).2.2.2.2.2
      (by intro kv hkv; cases hkv with
          | head => simp
          | tail _ h => cases h)

/-! ## Claim C3 — the retriever transform -/

/-- C3 counterexample: an item carrying both `content` and `snippet`.  The
claim says the attributes are exactly every non-null field other than the
one used as text — so `snippet` should remain — but the code strips
`snippet` as well, producing empty attributes. -/
theorem toDocuments_snippet_dropped_cx :
    toDocuments (Json.obj [("data", Json.arr
        [Json.obj [("content", Json.str "X"), ("snippet", Json.str "Y")]])])
      = Except.ok [(Json.str "X", [])]
    ∧ ("snippet", Json.str "Y") ∈ [("content", Json.str "X"), ("snippet", Json.str "Y")]
    ∧ ("snippet", Json.str "Y").2 ≠ Json.null
    ∧ ("snippet", Json.str "Y").1 ≠ "content"
    ∧ (docOfItem [("content", Json.str "X"), ("snippet", Json.str "Y")]).2 = [] := by
  refine ⟨rfl, ?_, by simp, by simp, rfl⟩
  simp

/-- C3 (amended): for every successful response object whose `data` field
holds an array of items — whatever other top-level fields the response
carries — the transform yields one document per item, in order; the text
is the item's `content` field, else its `snippet` field, else the empty
string; the attributes are exactly the non-null fields other than
`content` and `snippet` (the code removes the `snippet` key even when
`content` supplied the text). -/
theorem toDocuments_spec (fields : List (String × Json))
    (items : List (List (String × Json)))
    (hdata : jsonLookup fields "data" = some (Json.arr (items.map Json.obj))) :
    toDocuments (Json.obj fields) = Except.ok (items.map docOfItem)
    ∧ (∀ item : List (String × Json),
        (docOfItem item).1 =
          (match jsonLookup item "content", jsonLookup item "snippet" with
           | some c, _ => c
           | none, some s => s
           | none, none => Json.str ""))
    ∧ (∀ (item : List (String × Json)) (kv : String × Json),
        kv ∈ (docOfItem item).2 ↔
          kv ∈ item ∧ kv.1 ≠ "content" ∧ kv.1 ≠ "snippet" ∧ kv.2 ≠ Json.null) := by
  refine ⟨?_, ?_, ?_⟩
  · have hlist : docsOfItems (items.map Json.obj) = Except.ok (items.map docOfItem) := by
      clear hdata
      induction items with
      | nil => rfl
      | cons item rest ih => simp [docsOfItems, ih]
    simp [toDocuments, hdata, hlist]
  · intro item
    unfold docOfItem jsonGetD
    cases hc : jsonLookup item "content" with
    | some c => simp
    | none =>
      cases hs : jsonLookup item "snippet" with
      | some s => simp
      | none => simp
  · intro item kv
    unfold docOfItem
    rw [List.mem_filter]
    constructor
    · rintro ⟨hm, hb⟩
      simp only [Bool.and_eq_true, beq_iff_eq, Bool.not_eq_true'] at hb
      exact ⟨hm, by simpa using hb.1.1, by simpa using hb.1.2,
        (isNull_eq_false_iff kv.2).mp hb.2⟩
    · rintro ⟨hm, h1, h2, h3⟩
      refine ⟨hm, ?_⟩
      simp only [Bool.and_eq_true, Bool.not_eq_true']
      exact ⟨⟨by simpa using h1, by simpa using h2⟩, (isNull_eq_false_iff kv.2).mpr h3⟩

/-- C3 witness: the ordinary response envelope, with a sibling `meta`
field next to `data`. -/
theorem toDocuments_spec_witness :
    jsonLookup [("data", Json.arr [Json.obj
        [("content", Json.str "X"), ("company_name", Json.str "Toyota"),
         ("doc_id", Json.str "D1")]]),
      ("meta", Json.obj [("total", Json.num 1)])] "data"
      = some (Json.arr ([[("content", Json.str "X"),
          ("company_name", Json.str "Toyota"),
          ("doc_id", Json.str "D1")]].map Json.obj))
    ∧ toDocuments (Json.obj [("data", Json.arr [Json.obj
        [("content", Json.str "X"), ("company_name", Json.str "Toyota"),
         ("doc_id", Json.str "D1")]]),
      ("meta", Json.obj [("total", Json.num 1)])])
      = Except.ok ([[("content", Json.str "X"),
          ("company_name", Json.str "Toyota"),
          ("doc_id", Json.str "D1")]].map docOfItem) :=
  ⟨rfl,
   (toDocuments_spec
      [("data", Json.arr [Json.obj
          [("content", Json.str "X"), ("company_name", Json.str "Toyota"),
           ("doc_id", Json.str "D1")]]),
        ("meta", Json.obj [("total", Json.num 1)])]
      [[("content", Json.str "X"), ("company_name", Json.str "Toyota"),
        ("doc_id", Json.str "D1")]]
      rfl).1⟩

/-! ## Claim C4 — the retriever degrades to empty on HTTP failure -/

/-- C4: when the adapter call issued by the retriever fails with an HTTP
status error, both the blocking and the non-blocking invocation return the
empty document list instead of propagating the failure. -/
theorem retriever_empty_on_http_error (r : AxioraRetriever) (query : String)
    (transport : HttpCall → Except HTTPStatusError Json) (e : HTTPStatusError)
    (hfail : transport (r.wrapper.requestCall "GET" "/translations/search"
        (r.searchParams query)) = Except.error e) :
    r.getRelevantDocuments query transport = Except.ok []
    ∧ r.agetRelevantDocuments query transport = Except.ok [] := by
  constructor
  · unfold AxioraRetriever.getRelevantDocuments
    rw [hfail]
  · unfold AxioraRetriever.agetRelevantDocuments
    have harr : r.wrapper.arequestCall "GET" "/translations/search"
        (r.searchParams query) = r.wrapper.requestCall "GET" "/translations/search"
        (r.searchParams query) := rfl
    rw [harr, hfail]

/-- C4 witness: a concrete retriever against a transport that always fails
with a 500. -/
theorem retriever_empty_on_http_error_witness :
    (AxioraRetriever.getRelevantDocuments
      { api_key := "k", base_url := "https://api.axiora.dev/v1",
        sectionFilter := none, k := 10 }
      "semiconductor"
      (fun _ => Except.error { status := 500, jsonBody := none, text := "boom" })
      = Except.ok [])
    ∧ (AxioraRetriever.agetRelevantDocuments
      { api_key := "k", base_url := "https://api.axiora.dev/v1",
        sectionFilter := none, k := 10 }
      "semiconductor"
      (fun _ => Except.error { status := 500, jsonBody := none, text := "boom" })
      = Except.ok []) :=
  retriever_empty_on_http_error
    { api_key := "k", base_url := "https://api.axiora.dev/v1",
      sectionFilter := none, k := 10 }
    "semiconductor"
    (fun _ => Except.error { status := 500, jsonBody := none, text := "boom" })
    { status := 500, jsonBody := none, text := "boom" }
    rfl

/-! ## Claim C10 — the transform on unexpected top-level shapes -/

/-- C10: a successful response that is not a JSON object, or is an object
without a `data` key, yields the empty document list (no failure at the
top level). -/
theorem toDocuments_top_level_defaults (b : Bool) (n : Int) (s : String)
    (xs : List Json) (fields : List (String × Json)) :
    toDocuments Json.null = Except.ok []
    ∧ toDocuments (Json.bool b) = Except.ok []
    ∧ toDocuments (Json.num n) = Except.ok []
    ∧ toDocuments (Json.str s) = Except.ok []
    ∧ toDocuments (Json.arr xs) = Except.ok []
    ∧ (jsonLookup fields "data" = none → toDocuments (Json.obj fields) = Except.ok []) := by
  refine ⟨rfl, rfl, rfl, rfl, rfl, ?_⟩
  intro h
  simp [toDocuments, h]

/-- C10 witness: a concrete object response without a `data` key. -/
theorem toDocuments_top_level_defaults_witness :
    jsonLookup [("meta", Json.num 1)] "data" = none
    ∧ toDocuments (Json.obj [("meta", Json.num 1)]) = Except.ok [] :=
  ⟨rfl, (toDocuments_top_level_defaults true 0 "" [] [("meta", Json.num 1)]).2.2.2.2.2 rfl⟩

/-! ## Claims C5 and C6 — the toolkit aggregator -/

theorem mem_insertSorted (s a : String) (l : List String) :
    a ∈ insertSorted s l ↔ a = s ∨ a ∈ l := by
  induction l with
  | nil => simp [insertSorted]
  | cons t ts ih =>
    by_cases h : strLe s t = true
    · simp [insertSorted, h]
    · have hf : strLe s t = false := by simpa using h
      simp only [insertSorted, hf]
      simp [ih]
      tauto

theorem mem_sortStrings (a : String) (l : List String) :
    a ∈ sortStrings l ↔ a ∈ l := by
  induction l with
  | nil => simp [sortStrings]
  | cons t ts ih =>
    simp only [sortStrings] at ih ⊢
    simp [List.foldr, mem_insertSorted, ih]

/-- C5: with no subset selected, `get_tools` yields exactly one facade per
known tool class — the fixed set of 18 — all bound to the one adapter
built in that call; with a subset of valid names selected, it yields
exactly the facades whose names are in the subset. -/
theorem getTools_spec (key url : String) (sel : List String) :
    (({ api_key := key, base_url := url, selected_tools := none } : AxioraToolkit).getTools
        = ALL_TOOL_NAMES.map (fun n =>
            ({ name := n, api := { api_key := key, base_url := url, timeout := 30 } } : ToolInstance)))
    ∧ (({ api_key := key, base_url := url, selected_tools := none } : AxioraToolkit).getTools).length = 18
    ∧ (∀ t : ToolInstance,
        t ∈ ({ api_key := key, base_url := url, selected_tools := some sel } : AxioraToolkit).getTools
        ↔ (t ∈ ({ api_key := key, base_url := url, selected_tools := none } : AxioraToolkit).getTools
            ∧ t.name ∈ sel))
    ∧ (∀ t : ToolInstance,
        t ∈ ({ api_key := key, base_url := url, selected_tools := some sel } : AxioraToolkit).getTools
        → t.api = { api_key := key, base_url := url, timeout := 30 })
    ∧ ((∀ n ∈ sel, n ∈ ALL_TOOL_NAMES) → ∀ n ∈ sel,
        ∃ t ∈ ({ api_key := key, base_url := url, selected_tools := some sel } : AxioraToolkit).getTools,
          t.name = n) := by
  refine ⟨rfl, rfl, ?_, ?_, ?_⟩
  · intro t
    simp only [AxioraToolkit.getTools]
    rw [List.mem_filter]
    constructor
    · rintro ⟨hm, hc⟩
      exact ⟨hm, by simpa using hc⟩
    · rintro ⟨hm, hc⟩
      exact ⟨hm, by simpa using hc⟩
  · intro t ht
    simp only [AxioraToolkit.getTools] at ht
    have hm : t ∈ ALL_TOOL_NAMES.map (fun n =>
        ({ name := n, api := { api_key := key, base_url := url, timeout := 30 } } : ToolInstance)) :=
      (List.mem_filter.mp ht).1
    obtain ⟨n, _, rfl⟩ := List.mem_map.mp hm
    rfl
  · intro hvalid n hn
    refine ⟨(⟨n, ⟨key, url, 30⟩⟩ : ToolInstance), ?_, rfl⟩
    simp only [AxioraToolkit.getTools]
    rw [List.mem_filter]
    exact ⟨List.mem_map.mpr ⟨n, hvalid n hn, rfl⟩, by simpa using hn⟩

/-- C5 witness: the full set and a two-name subset at a concrete toolkit. -/
theorem getTools_spec_witness :
    (∀ n ∈ ["axiora_search_companies", "axiora_get_financials"], n ∈ ALL_TOOL_NAMES)
    ∧ (∃ t ∈ ((⟨"k", "https://api.axiora.dev/v1",
          some ["axiora_search_companies", "axiora_get_financials"]⟩ : AxioraToolkit)).getTools,
        t.name = "axiora_get_financials") :=
  ⟨by decide,
   (getTools_spec "k" "https://api.axiora.dev/v1"
      ["axiora_search_companies", "axiora_get_financials"]).2.2.2.2
     (by decide) "axiora_get_financials" (by decide)⟩

/-- C6: the toolkit accepts an absent subset and any subset of valid
names, and rejects a subset containing unknown names with a `ValueError`
whose message lists exactly the (sorted, deduplicated) invalid names and
the full sorted valid name set. -/
theorem validateSelectedTools_spec (sel : List String) :
    validateSelectedTools none = Except.ok none
    ∧ ((∀ n ∈ sel, n ∈ VALID_TOOL_NAMES) →
        validateSelectedTools (some sel) = Except.ok (some sel))
    ∧ ((∃ n ∈ sel, n ∉ VALID_TOOL_NAMES) →
        (validateSelectedTools (some sel)
          = Except.error ("Invalid tool names: "
              ++ pyStrListRepr (sortStrings ((sel.filter
                    (fun n => !VALID_TOOL_NAMES.contains n)).dedup))
              ++ ". Valid names: " ++ pyStrListRepr (sortStrings VALID_TOOL_NAMES))
        ∧ ∀ n, (n ∈ sortStrings ((sel.filter
              (fun n => !VALID_TOOL_NAMES.contains n)).dedup)
            ↔ n ∈ sel ∧ n ∉ VALID_TOOL_NAMES))) := by
  refine ⟨rfl, ?_, ?_⟩
  · intro hvalid
    have hfil : sel.filter (fun n => !VALID_TOOL_NAMES.contains n) = [] := by
      rw [List.filter_eq_nil_iff]
      intro n hn
      simp [hvalid n hn]
    simp only [validateSelectedTools, hfil]
    rfl
  · rintro ⟨bad, hbad, hnv⟩
    have hmem : bad ∈ (sel.filter (fun n => !VALID_TOOL_NAMES.contains n)).dedup := by
      rw [List.mem_dedup, List.mem_filter]
      exact ⟨hbad, by simpa using hnv⟩
    have hne : ((sel.filter (fun n => !VALID_TOOL_NAMES.contains n)).dedup).isEmpty = false := by
      cases h : (sel.filter (fun n => !VALID_TOOL_NAMES.contains n)).dedup with
      | nil => rw [h] at hmem; cases hmem
      | cons a l => rfl
    refine ⟨?_, ?_⟩
    · simp only [validateSelectedTools, hne, Bool.false_eq_true, if_false]
    · intro n
      rw [mem_sortStrings, List.mem_dedup, List.mem_filter]
      constructor
      · rintro ⟨hm, hc⟩
        exact ⟨hm, by simpa using hc⟩
      · rintro ⟨hm, hc⟩
        exact ⟨hm, by simpa using hc⟩

/-- C6 witness: a fully valid subset is accepted; a subset with one
unknown name is rejected with the listing message. -/
theorem validateSelectedTools_spec_witness :
    validateSelectedTools (some ["axiora_search_companies", "axiora_get_financials"])
      = Except.ok (some ["axiora_search_companies", "axiora_get_financials"])
    ∧ validateSelectedTools (some ["axiora_search_companies", "nonexistent_tool"])
      = Except.error ("Invalid tool names: "
          ++ pyStrListRepr (sortStrings (((["axiora_search_companies", "nonexistent_tool"]).filter
                (fun n => !VALID_TOOL_NAMES.contains n)).dedup))
          ++ ". Valid names: " ++ pyStrListRepr (sortStrings VALID_TOOL_NAMES)) :=
  ⟨(validateSelectedTools_spec ["axiora_search_companies", "axiora_get_financials"]).2.1
      (by decide),
   ((validateSelectedTools_spec ["axiora_search_companies", "nonexistent_tool"]).2.2
      (by decide)).1⟩

/-! ## Claim C7 — credential resolution -/

/-- C7: constructing the adapter, a tool facade, the toolkit or the
retriever with no explicit `api_key` and no `AXIORA_API_KEY` in the
environment fails at construction (a pure step that issues no HTTP call)
with the configuration message, which names `AXIORA_API_KEY`; an explicit
`api_key` argument always wins over the environment variable. -/
theorem api_key_resolution_spec (bu : Option String) (env : Option String)
    (k v : String) (sel : Option (List String)) (sect : Option String)
    (kArg : Option Int) :
    secretFromEnv none = Except.error API_KEY_ERROR_MESSAGE
    ∧ strContains API_KEY_ERROR_MESSAGE "AXIORA_API_KEY" = true
    ∧ resolveApiKey (some k) env = Except.ok k
    ∧ resolveApiKey none (some v) = Except.ok v
    ∧ mkAxioraAPIWrapper none bu none = Except.error API_KEY_ERROR_MESSAGE
    ∧ mkAxioraAPIWrapper (some k) bu env
        = Except.ok { api_key := k, base_url := bu.getD DEFAULT_BASE_URL, timeout := 30 }
    ∧ mkAxioraAPIWrapper none bu (some v)
        = Except.ok { api_key := v, base_url := bu.getD DEFAULT_BASE_URL, timeout := 30 }
    ∧ mkToolApi none none bu none = Except.error API_KEY_ERROR_MESSAGE
    ∧ mkToolApi none (some k) bu env
        = Except.ok { api_key := k, base_url := bu.getD DEFAULT_BASE_URL, timeout := 30 }
    ∧ mkAxioraToolkit none bu sel none = Except.error API_KEY_ERROR_MESSAGE
    ∧ mkAxioraToolkit (some k) bu none env
        = Except.ok { api_key := k, base_url := bu.getD DEFAULT_BASE_URL,
                      selected_tools := none }
    ∧ mkAxioraRetriever none bu sect kArg none = Except.error API_KEY_ERROR_MESSAGE
    ∧ mkAxioraRetriever (some k) bu sect kArg env
        = Except.ok { api_key := k, base_url := bu.getD DEFAULT_BASE_URL,
                      sectionFilter := sect, k := kArg.getD 10 } :=
  ⟨rfl, by decide, rfl, rfl, rfl, rfl, rfl, rfl, rfl, rfl, rfl, rfl, rfl⟩

/-! ## Claim C8 — blocking/non-blocking equivalence -/

/-- C8: for every facade and every input, the non-blocking path builds the
same wire request (URL and cleaned parameters), serializes success the
same way, and routes HTTP failures through the same error translation as
the blocking path. -/
theorem sync_async_equivalent (w : AxioraAPIWrapper)
    (transport : HttpCall → Except HTTPStatusError Json)
    (method path query month code docId metric order : String)
    (sector sect companyCode docType : Option String)
    (codes queries : List String) (limit years : Int)
    (minRevenue minNetIncome minRoe maxPeRatio : Option Int)
    (params : List (String × Json)) :
    w.requestCall method path params = w.arequestCall method path params
    ∧ runToolSync w transport method path params
        = runToolAsync w transport method path params
    ∧ SearchCompaniesTool.run w transport query sector limit
        = SearchCompaniesTool.arun w transport query sector limit
    ∧ GetCompanyTool.run w transport code = GetCompanyTool.arun w transport code
    ∧ GetFinancialsTool.run w transport code years
        = GetFinancialsTool.arun w transport code years
    ∧ GetGrowthTool.run w transport code years
        = GetGrowthTool.arun w transport code years
    ∧ GetRankingTool.run w transport metric sector order limit
        = GetRankingTool.arun w transport metric sector order limit
    ∧ GetSectorOverviewTool.run w transport sector
        = GetSectorOverviewTool.arun w transport sector
    ∧ CompareCompaniesTool.run w transport codes years
        = CompareCompaniesTool.arun w transport codes years
    ∧ ScreenCompaniesTool.run w transport sector minRevenue minNetIncome minRoe maxPeRatio limit
        = ScreenCompaniesTool.arun w transport sector minRevenue minNetIncome minRoe maxPeRatio limit
    ∧ GetHealthScoreTool.run w transport code = GetHealthScoreTool.arun w transport code
    ∧ GetHealthRankingTool.run w transport sector order limit
        = GetHealthRankingTool.arun w transport sector order limit
    ∧ GetPeersTool.run w transport code limit = GetPeersTool.arun w transport code limit
    ∧ GetTimeseriesTool.run w transport codes metric years
        = GetTimeseriesTool.arun w transport codes metric years
    ∧ ListFilingsTool.run w transport companyCode docType limit
        = ListFilingsTool.arun w transport companyCode docType limit
    ∧ GetTranslationsTool.run w transport docId sect
        = GetTranslationsTool.arun w transport docId sect
    ∧ SearchTranslationsTool.run w transport query sect limit
        = SearchTranslationsTool.arun w transport query sect limit
    ∧ GetFilingCalendarTool.run w transport month
        = GetFilingCalendarTool.arun w transport month
    ∧ SearchCompaniesBatchTool.run w transport queries
        = SearchCompaniesBatchTool.arun w transport queries
    ∧ GetCoverageTool.run w transport = GetCoverageTool.arun w transport
    ∧ (∀ r : AxioraRetriever, ∀ q : String,
        r.getRelevantDocuments q transport = r.agetRelevantDocuments q transport) :=
  ⟨rfl, rfl, rfl, rfl, rfl, rfl, rfl, by unfold GetSectorOverviewTool.run GetSectorOverviewTool.arun; split <;> rfl,
   rfl, rfl, rfl, rfl, rfl, rfl, rfl, rfl, rfl, rfl, rfl, rfl, fun _ _ => rfl⟩

/-! ## Claim C9 — the credential never appears in renderings -/

/-- C9: every modelled textual representation of the adapter, a facade or
the toolkit is independent of the credential value (the secret is rendered
as the fixed pydantic mask), and at the repository test credential the
rendering does not contain the secret. -/
theorem secret_never_rendered (k1 k2 bu : String) (t : Int)
    (sel : Option (List String)) (nm : String) :
    AxioraAPIWrapper.reprStr ⟨k1, bu, t⟩ = AxioraAPIWrapper.reprStr ⟨k2, bu, t⟩
    ∧ AxioraAPIWrapper.strConv ⟨k1, bu, t⟩ = AxioraAPIWrapper.strConv ⟨k2, bu, t⟩
    ∧ AxioraAPIWrapper.modelDumpJson ⟨k1, bu, t⟩ = AxioraAPIWrapper.modelDumpJson ⟨k2, bu, t⟩
    ∧ ToolInstance.reprStr ⟨nm, ⟨k1, bu, t⟩⟩ = ToolInstance.reprStr ⟨nm, ⟨k2, bu, t⟩⟩
    ∧ ToolInstance.modelDumpJson ⟨nm, ⟨k1, bu, t⟩⟩ = ToolInstance.modelDumpJson ⟨nm, ⟨k2, bu, t⟩⟩
    ∧ AxioraToolkit.reprStr ⟨k1, bu, sel⟩ = AxioraToolkit.reprStr ⟨k2, bu, sel⟩
    ∧ strContains (AxioraAPIWrapper.reprStr
        ⟨"ax_live_supersecretkey123", "https://api.axiora.dev/v1", 30⟩)
        "ax_live_supersecretkey123" = false
    ∧ strContains (AxioraAPIWrapper.modelDumpJson
        ⟨"ax_live_supersecretkey123", "https://api.axiora.dev/v1", 30⟩)
        "ax_live_supersecretkey123" = false
    ∧ strContains (AxioraToolkit.reprStr
        ⟨"ax_live_supersecretkey123", "https://api.axiora.dev/v1", none⟩)
        "ax_live_supersecretkey123" = false :=
  ⟨rfl, rfl, rfl, rfl, rfl, rfl, by decide, by decide, by decide⟩

end LangchainAxiora
